import Mathlib

/-!
# Verification of the mention-monitoring and alerting engine

Shallow embedding, in Lean 4, of the monitoring/alert/sentiment services of
the CryptoSentinel repository, together with theorems settling the frozen
claims about it.

Conventions of the embedding:
* JavaScript numbers are modelled as `ℚ` (all the arithmetics the claims
  touch is exact decimal/rational arithmetic); timestamps (`Date.now()`)
  as `ℤ` milliseconds.
* JavaScript truthiness is modelled explicitly where the source relies on
  it (`x && …`, `x || d`): the number `0`, the empty string and
  `null`/`undefined` (modelled as `Option.none`) are falsy.
* `Math.log10` is an external pure math capability; functions that call it
  take a `log10 : ℚ → ℚ` parameter.  Theorems that need facts about the
  real `log10` assume only `∀ x, 1 ≤ x → 0 ≤ log10 x`.
* Fallible external calls (the HTTP provider, the classification oracle)
  are modelled as `Option`/`Except`-valued parameters; `none`/`error`
  means the call threw.
-/

/-- JavaScript `Math.round`: round half toward positive infinity. -/
def jsRound (q : ℚ) : ℤ := ⌊q + 1/2⌋

/-- JavaScript `a || b` for a possibly-undefined number `a`:
`undefined` and `0` fall through to `b`. -/
def jsOrQ (a : Option ℚ) (b : ℚ) : ℚ :=
  match a with
  | some x => if x = 0 then b else x
  | none => b

/-- Truthiness of a possibly-undefined number (`x && …` guards). -/
def truthyQ (a : Option ℚ) : Bool :=
  match a with
  | some x => x ≠ 0
  | none => false

namespace RateLimit

/-!
## `RateLimitManager` (mention monitoring service)

State of one service entry of `this.rateLimits` (the source ships a single
`twitter` entry with `requests = 300`, `window = 15 min`).
`current` counts consumed requests inside the window.
-/

structure ServiceLimit where
  requests : ℕ
  window : ℤ
  current : ℕ
  resetTime : ℤ
  deriving Repr, DecidableEq

/-- The initial `twitter` entry: 300 requests per 15-minute window. -/
def twitterLimit (now : ℤ) : ServiceLimit :=
  { requests := 300, window := 15 * 60 * 1000, current := 0,
    resetTime := now + 15 * 60 * 1000 }

/-- The window-expiry reset performed at the top of `canMakeRequest`:
`if (Date.now() > limit.resetTime) { limit.current = 0; limit.resetTime = … }`. -/
def resetIfExpired (s : ServiceLimit) (now : ℤ) : ServiceLimit :=
  if now > s.resetTime then
    { s with current := 0, resetTime := now + s.window }
  else s

/-- `RateLimitManager.canMakeRequest` for one configured service entry:
reset the window if expired, then consume `requestCount` only when it fits
under the limit.  Returns the decision and the updated entry. -/
def canMakeRequest (s : ServiceLimit) (now : ℤ) (requestCount : ℕ) :
    Bool × ServiceLimit :=
  if (resetIfExpired s now).current + requestCount ≤ (resetIfExpired s now).requests then
    (true, { resetIfExpired s now with
             current := (resetIfExpired s now).current + requestCount })
  else
    (false, resetIfExpired s now)

/-- `RateLimitManager.getStatus().remaining` for one service entry. -/
def statusRemaining (s : ServiceLimit) : ℤ :=
  max 0 ((s.requests : ℤ) - (s.current : ℤ))

/-- Run a sequence of `canMakeRequest` calls, threading the state. -/
def runCalls (s : ServiceLimit) : List (ℤ × ℕ) → ServiceLimit
  | [] => s
  | (now, cost) :: rest => runCalls (canMakeRequest s now cost).2 rest

theorem canMakeRequest_current_le (s : ServiceLimit) (now : ℤ) (c : ℕ)
    (h : s.current ≤ s.requests) :
    (canMakeRequest s now c).2.current ≤ (canMakeRequest s now c).2.requests := by
  unfold canMakeRequest resetIfExpired
  by_cases hr : now > s.resetTime <;> simp [hr]
  · by_cases hc : c ≤ s.requests <;> simp [hc]
  · by_cases hc : s.current + c ≤ s.requests <;> simp [hc, h]

theorem runCalls_current_le (calls : List (ℤ × ℕ)) (s : ServiceLimit)
    (h : s.current ≤ s.requests) :
    (runCalls s calls).current ≤ (runCalls s calls).requests := by
  induction calls generalizing s with
  | nil => exact h
  | cons hd tl ih =>
    obtain ⟨now, cost⟩ := hd
    exact ih _ (canMakeRequest_current_le s now cost h)

theorem canMakeRequest_requests_eq (s : ServiceLimit) (now : ℤ) (c : ℕ) :
    (canMakeRequest s now c).2.requests = s.requests := by
  unfold canMakeRequest resetIfExpired
  by_cases hr : now > s.resetTime <;> simp [hr] <;> split <;> rfl

end RateLimit

/-- C3 — Rate-limiter budget safety: starting from any entry whose consumed
counter is within the limit (in particular the initial `twitter` entry),
any sequence of `canMakeRequest` calls keeps `current ≤ requests`, so
`getStatus().remaining = requests − current` never clamps below 0; a single
call that returns `false` leaves the entry exactly as the window-expiry
reset left it (no consumption), a call that returns `true` consumes exactly
its cost and only when the post-reset budget covers that cost, and when the
window has expired the counter is reset (consumed count 0, i.e. remaining
budget back to the full limit) before the check. -/
theorem rateLimiter_budget_safety (s : RateLimit.ServiceLimit) (now : ℤ)
    (c : ℕ) (calls : List (ℤ × ℕ)) (hs : s.current ≤ s.requests) :
    (RateLimit.runCalls s calls).current ≤ (RateLimit.runCalls s calls).requests
    ∧ RateLimit.statusRemaining (RateLimit.runCalls s calls) =
        ((RateLimit.runCalls s calls).requests : ℤ) -
          ((RateLimit.runCalls s calls).current : ℤ)
    ∧ ((RateLimit.canMakeRequest s now c).1 = false →
        (RateLimit.canMakeRequest s now c).2 = RateLimit.resetIfExpired s now)
    ∧ ((RateLimit.canMakeRequest s now c).1 = true →
        (RateLimit.canMakeRequest s now c).2.current =
          (RateLimit.resetIfExpired s now).current + c
        ∧ (RateLimit.resetIfExpired s now).current + c ≤ s.requests)
    ∧ (now > s.resetTime →
        (RateLimit.resetIfExpired s now).current = 0
        ∧ (RateLimit.resetIfExpired s now).resetTime = now + s.window) := by
  have hinv := RateLimit.runCalls_current_le calls s hs
  refine ⟨hinv, ?_, ?_, ?_, ?_⟩
  · have := hinv
    unfold RateLimit.statusRemaining
    omega
  · intro hfalse
    unfold RateLimit.canMakeRequest at hfalse ⊢
    by_cases hc : (RateLimit.resetIfExpired s now).current + c ≤
        (RateLimit.resetIfExpired s now).requests
    · simp_all
    · simp only [if_neg hc]
  · intro htrue
    have hreq : (RateLimit.resetIfExpired s now).requests = s.requests := by
      unfold RateLimit.resetIfExpired
      split <;> rfl
    unfold RateLimit.canMakeRequest at htrue ⊢
    by_cases hc : (RateLimit.resetIfExpired s now).current + c ≤
        (RateLimit.resetIfExpired s now).requests
    · rw [hreq] at hc
      refine ⟨?_, hc⟩
      rw [hreq]
      rw [if_pos hc]
    · rw [hreq] at hc
      rw [hreq, if_neg hc] at htrue
      exact Bool.noConfusion htrue
  · intro hr
    unfold RateLimit.resetIfExpired
    simp [hr]

/-- Witness for C3 at a concrete run: the initial twitter entry created at
time 0, one successful call of cost 100 followed by a denied call of cost
250, and a single probed call of cost 5 at time 0. -/
theorem rateLimiter_budget_safety_witness :
    (RateLimit.twitterLimit 0).current ≤ (RateLimit.twitterLimit 0).requests
    ∧ ((RateLimit.runCalls (RateLimit.twitterLimit 0) [(1, 100), (2, 250)]).current ≤
        (RateLimit.runCalls (RateLimit.twitterLimit 0) [(1, 100), (2, 250)]).requests
      ∧ RateLimit.statusRemaining
          (RateLimit.runCalls (RateLimit.twitterLimit 0) [(1, 100), (2, 250)]) =
          ((RateLimit.runCalls (RateLimit.twitterLimit 0) [(1, 100), (2, 250)]).requests : ℤ) -
            ((RateLimit.runCalls (RateLimit.twitterLimit 0) [(1, 100), (2, 250)]).current : ℤ)
      ∧ ((RateLimit.canMakeRequest (RateLimit.twitterLimit 0) 0 5).1 = false →
          (RateLimit.canMakeRequest (RateLimit.twitterLimit 0) 0 5).2 =
            RateLimit.resetIfExpired (RateLimit.twitterLimit 0) 0)
      ∧ ((RateLimit.canMakeRequest (RateLimit.twitterLimit 0) 0 5).1 = true →
          (RateLimit.canMakeRequest (RateLimit.twitterLimit 0) 0 5).2.current =
            (RateLimit.resetIfExpired (RateLimit.twitterLimit 0) 0).current + 5
          ∧ (RateLimit.resetIfExpired (RateLimit.twitterLimit 0) 0).current + 5 ≤
              (RateLimit.twitterLimit 0).requests)
      ∧ ((0 : ℤ) > (RateLimit.twitterLimit 0).resetTime →
          (RateLimit.resetIfExpired (RateLimit.twitterLimit 0) 0).current = 0
          ∧ (RateLimit.resetIfExpired (RateLimit.twitterLimit 0) 0).resetTime =
              0 + (RateLimit.twitterLimit 0).window)) :=
  ⟨by decide, rateLimiter_budget_safety (RateLimit.twitterLimit 0) 0 5
    [(1, 100), (2, 250)] (by decide)⟩

namespace MonQueue

/-!
## `MentionMonitoringService` — monitor registry and processing queue

The queue-related state of the service: `activeMonitors` (modelled as the
map from monitor id to its `isActive` flag, the only field the queue logic
reads) and `monitoringQueue` (a FIFO list of monitor ids).
`config.batchSize = 5` in the source.
-/

structure ServiceState where
  monitors : String → Option Bool
  queue : List String

/-- The state of a freshly constructed service: no monitors, empty queue. -/
def initState : ServiceState :=
  { monitors := fun _ => none, queue := [] }

/-- `addToProcessingQueue`: push only when the id is not already queued. -/
def addToProcessingQueue (st : ServiceState) (monitorId : String) : ServiceState :=
  if monitorId ∈ st.queue then st
  else { st with queue := st.queue ++ [monitorId] }

/-- `removeFromProcessingQueue`: `splice` out the first occurrence found by
`indexOf` (no-op when absent). -/
def removeFromProcessingQueue (st : ServiceState) (monitorId : String) : ServiceState :=
  { st with queue := st.queue.erase monitorId }

/-- `Map.set` on `activeMonitors`. -/
def setMonitor (st : ServiceState) (id : String) (isActive : Bool) : ServiceState :=
  { st with monitors := fun x => if x = id then some isActive else st.monitors x }

/-- `Map.delete` on `activeMonitors`. -/
def delMonitor (st : ServiceState) (id : String) : ServiceState :=
  { st with monitors := fun x => if x = id then none else st.monitors x }

/-- `createMonitor`: register the monitor, then enqueue it when active. -/
def createMonitor (st : ServiceState) (id : String) (isActive : Bool) : ServiceState :=
  let st1 := setMonitor st id isActive
  if isActive then addToProcessingQueue st1 id else st1

/-- `toggleMonitor`: `updateMonitor` throws when the id is unknown (no state
change); otherwise update the flag and enqueue/dequeue accordingly. -/
def toggleMonitor (st : ServiceState) (id : String) (isActive : Bool) : ServiceState :=
  match st.monitors id with
  | none => st
  | some _ =>
    let st1 := setMonitor st id isActive
    if isActive then addToProcessingQueue st1 id
    else removeFromProcessingQueue st1 id

/-- `deleteMonitor`: throws when unknown; otherwise remove from the map and
the queue. -/
def deleteMonitor (st : ServiceState) (id : String) : ServiceState :=
  match st.monitors id with
  | none => st
  | some _ => removeFromProcessingQueue (delMonitor st id) id

/-- `processQueue`: splice a batch of `config.batchSize = 5` ids off the
front, process them, then re-add those still registered and active. -/
def processQueue (st : ServiceState) : ServiceState :=
  let batch := st.queue.take 5
  let st1 := { st with queue := st.queue.drop 5 }
  batch.foldl
    (fun acc mid =>
      match acc.monitors mid with
      | some true => addToProcessingQueue acc mid
      | _ => acc)
    st1

/-- The queue-touching operations of the service API. -/
inductive Op where
  | create (id : String) (isActive : Bool)
  | toggle (id : String) (isActive : Bool)
  | delete (id : String)
  | process
  deriving Repr

def step (st : ServiceState) : Op → ServiceState
  | Op.create id a => createMonitor st id a
  | Op.toggle id a => toggleMonitor st id a
  | Op.delete id => deleteMonitor st id
  | Op.process => processQueue st

def run (ops : List Op) : ServiceState :=
  ops.foldl step initState

theorem addToProcessingQueue_nodup (st : ServiceState) (id : String)
    (h : st.queue.Nodup) : (addToProcessingQueue st id).queue.Nodup := by
  unfold addToProcessingQueue
  by_cases hm : id ∈ st.queue <;> simp [hm, List.nodup_append, h]

theorem foldl_readd_nodup (batch : List String) (st : ServiceState)
    (h : st.queue.Nodup) :
    (batch.foldl
      (fun acc mid =>
        match acc.monitors mid with
        | some true => addToProcessingQueue acc mid
        | _ => acc)
      st).queue.Nodup := by
  induction batch generalizing st with
  | nil => exact h
  | cons hd tl ih =>
    simp only [List.foldl_cons]
    apply ih
    cases hmon : st.monitors hd with
    | none => simpa [hmon] using h
    | some b =>
      cases b with
      | false => simpa [hmon] using h
      | true => simpa [hmon] using addToProcessingQueue_nodup st hd h

theorem step_nodup (st : ServiceState) (op : Op) (h : st.queue.Nodup) :
    (step st op).queue.Nodup := by
  cases op with
  | create id a =>
    simp only [step, createMonitor]
    cases a with
    | false => exact h
    | true => exact addToProcessingQueue_nodup _ id h
  | toggle id a =>
    simp only [step, toggleMonitor]
    cases hmon : st.monitors id with
    | none => exact h
    | some b =>
      cases a with
      | false => exact List.Nodup.erase id h
      | true => exact addToProcessingQueue_nodup _ id h
  | delete id =>
    simp only [step, deleteMonitor]
    cases hmon : st.monitors id with
    | none => exact h
    | some b => exact List.Nodup.erase id h
  | process =>
    simp only [step, processQueue]
    exact foldl_readd_nodup _ _ (h.sublist (List.drop_sublist 5 st.queue))

theorem run_nodup (ops : List Op) : (run ops).queue.Nodup := by
  unfold run
  suffices hgen : ∀ st : ServiceState, st.queue.Nodup →
      (ops.foldl step st).queue.Nodup from
    hgen initState (by simp [initState])
  induction ops with
  | nil => intro st h; exact h
  | cons hd tl ih =>
    intro st h
    exact ih _ (step_nodup st hd h)

end MonQueue

/-- C10 — Queue uniqueness invariant: for every sequence of create, toggle,
delete and queue-processing operations starting from a fresh service, the
pending monitoring queue contains each monitor id at most once, enqueueing
is idempotent (`addToProcessingQueue` twice equals once), and the batch of
(up to) `batchSize = 5` ids spliced off the front of the queue by
`processQueue` never contains the same monitor twice. -/
theorem processingQueue_uniqueness (ops : List MonQueue.Op)
    (st : MonQueue.ServiceState) (id : String) :
    (MonQueue.run ops).queue.Nodup
    ∧ ((MonQueue.run ops).queue.take 5).Nodup
    ∧ MonQueue.addToProcessingQueue (MonQueue.addToProcessingQueue st id) id =
        MonQueue.addToProcessingQueue st id := by
  refine ⟨MonQueue.run_nodup ops,
    ((MonQueue.run_nodup ops).sublist (List.take_sublist 5 _)), ?_⟩
  unfold MonQueue.addToProcessingQueue
  by_cases hm : id ∈ st.queue <;> simp [hm]

namespace Monitoring

/-!
## `MentionMonitoringService` — per-tick alert evaluation

Embedding of `checkAlertConditions`, `updateMonitorData` and the part of
`processMonitor` that strings them together on one evaluation tick.
Monitor config fields that these functions never read (keywords, filters,
webhooks, …) are omitted; numbers are `ℚ`, timestamps `ℤ` ms.
-/

/-- `results.sentiment` as produced by `analyzeMentionsSentiment`. -/
structure SentimentSummary where
  average_sentiment : ℚ
  average_confidence : ℚ
  deriving Repr, DecidableEq

/-- `mention.author` (possibly missing — `author?.…` accesses). -/
structure MentionAuthor where
  followers_count : Option ℚ
  verified : Bool
  username : String
  deriving Repr, DecidableEq

structure RawMention where
  author : Option MentionAuthor
  text : String
  deriving Repr, DecidableEq

/-- `monitor.alertThresholds` (fields read by `checkAlertConditions`;
`volumeIncrease` is configured but never read there). -/
structure AlertThresholds where
  mentionSpike : ℚ
  sentimentChange : ℚ
  influencerMention : Bool
  deriving Repr, DecidableEq

/-- `monitor.stats`. -/
structure MonitorStats where
  totalMentions : ℚ
  alertsTriggered : ℚ
  avgSentiment : ℚ
  lastAlert : Option ℤ
  lastProcessed : Option ℤ
  deriving Repr, DecidableEq

/-- One fired alert record (`{type, severity, message, data, timestamp}`;
the message string and data payload are not needed by any claim). -/
structure AlertRec where
  type : String
  severity : String
  timestamp : ℤ
  deriving Repr, DecidableEq

/-- `monitor.data`. -/
structure MonitorData where
  recentMentions : List RawMention
  sentimentHistory : List (ℤ × ℚ × ℚ)
  volumeHistory : List (ℤ × ℕ)
  alertHistory : List AlertRec
  deriving Repr, DecidableEq

structure Monitor where
  alertThresholds : AlertThresholds
  stats : MonitorStats
  data : MonitorData
  deriving Repr, DecidableEq

/-- The `results` object assembled by `processMonitor`. -/
structure TickResults where
  timestamp : ℤ
  mentions : List RawMention
  alerts : List AlertRec
  sentiment : Option SentimentSummary
  volume : ℕ
  deriving Repr, DecidableEq

/-- `this.config.alertCooldown` = 5 minutes. -/
def alertCooldown : ℤ := 300000

/-- The cooldown gate at the top of `checkAlertConditions`:
`monitor.stats.lastAlert && (now - monitor.stats.lastAlert) < cooldown`
(note `lastAlert` is also falsy at the number 0). -/
def inCooldown (m : Monitor) (now : ℤ) : Bool :=
  match m.stats.lastAlert with
  | some t => t ≠ 0 && now - t < alertCooldown
  | none => false

/-- Mention-spike condition:
`thresholds.mentionSpike && results.volume > thresholds.mentionSpike`. -/
def mentionSpikeAlerts (m : Monitor) (res : TickResults) (now : ℤ) :
    List AlertRec :=
  if m.alertThresholds.mentionSpike ≠ 0 ∧
      (res.volume : ℚ) > m.alertThresholds.mentionSpike then
    [{ type := "mention_spike", severity := "high", timestamp := now }]
  else []

/-- Sentiment-change condition (guards are JS-truthy:
`thresholds.sentimentChange && results.sentiment && monitor.stats.avgSentiment`). -/
def sentimentChangeAlerts (m : Monitor) (res : TickResults) (now : ℤ) :
    List AlertRec :=
  match res.sentiment with
  | some s =>
    if m.alertThresholds.sentimentChange ≠ 0 ∧ m.stats.avgSentiment ≠ 0 ∧
        |s.average_sentiment - m.stats.avgSentiment| >
          m.alertThresholds.sentimentChange then
      [{ type := "sentiment_change", severity := "medium", timestamp := now }]
    else []
  | none => []

/-- `mention.author?.followers_count > 100000 || mention.author?.verified`. -/
def isInfluencerMention (men : RawMention) : Bool :=
  match men.author with
  | some a =>
    (match a.followers_count with
     | some f => decide (f > 100000)
     | none => false) || a.verified
  | none => false

def influencerAlerts (m : Monitor) (res : TickResults) (now : ℤ) :
    List AlertRec :=
  if m.alertThresholds.influencerMention then
    if (res.mentions.filter isInfluencerMention).length > 0 then
      [{ type := "influencer_mention", severity := "high", timestamp := now }]
    else []
  else []

/-- `checkAlertConditions(monitor, results)` at clock reading `now`:
return no alerts inside the cooldown window, otherwise collect the three
condition checks in source order. -/
def checkAlertConditions (m : Monitor) (res : TickResults) (now : ℤ) :
    List AlertRec :=
  if inCooldown m now then []
  else
    mentionSpikeAlerts m res now ++ sentimentChangeAlerts m res now ++
      influencerAlerts m res now

/-- JS `array.slice(-n)`: the last `n` elements. -/
def sliceLast (n : ℕ) (l : List α) : List α := l.drop (l.length - n)

/-- `updateMonitorData(monitor, results)`: fold the tick's results into the
monitor's stats and bounded history arrays. -/
def updateMonitorData (m : Monitor) (res : TickResults) : Monitor :=
  { m with
    stats :=
      { m.stats with
        totalMentions := m.stats.totalMentions + res.volume
        lastProcessed := some res.timestamp
        avgSentiment :=
          match res.sentiment with
          | some s => s.average_sentiment
          | none => m.stats.avgSentiment
        alertsTriggered :=
          if res.alerts ≠ [] then m.stats.alertsTriggered + res.alerts.length
          else m.stats.alertsTriggered
        lastAlert :=
          if res.alerts ≠ [] then some res.timestamp else m.stats.lastAlert }
    data :=
      { recentMentions := (res.mentions.take 50 ++ m.data.recentMentions).take 1000
        sentimentHistory :=
          match res.sentiment with
          | some s =>
            sliceLast 100 (m.data.sentimentHistory ++
              [(res.timestamp, s.average_sentiment, s.average_confidence)])
          | none => m.data.sentimentHistory
        volumeHistory :=
          sliceLast 100 (m.data.volumeHistory ++ [(res.timestamp, res.volume)])
        alertHistory :=
          if res.alerts ≠ [] then
            sliceLast 50 (m.data.alertHistory ++ res.alerts)
          else m.data.alertHistory } }

/-- What `processMonitor` fetched and scored this tick, before alert
evaluation. -/
structure FetchedData where
  mentions : List RawMention
  sentiment : Option SentimentSummary
  volume : ℕ
  deriving Repr, DecidableEq

def mkResults (f : FetchedData) (now : ℤ) : TickResults :=
  { timestamp := now, mentions := f.mentions, alerts := [],
    sentiment := f.sentiment, volume := f.volume }

/-- One evaluation tick of `processMonitor` after the fetch/score phase:
evaluate the alert conditions, then fold the results (with the fired
alerts) back into the monitor.  The source reads the clock twice inside
one tick (`results.timestamp` and the `now` of `checkAlertConditions`) at
indistinguishably close instants; the embedding uses the single tick time
`now` for both. -/
def tick (m : Monitor) (f : FetchedData) (now : ℤ) :
    List AlertRec × Monitor :=
  let alerts := checkAlertConditions m (mkResults f now) now
  (alerts, updateMonitorData m { mkResults f now with alerts := alerts })

theorem tick_fired_lastAlert (m : Monitor) (f : FetchedData) (now : ℤ)
    (h : (tick m f now).1 ≠ []) :
    (tick m f now).2.stats.lastAlert = some now := by
  unfold tick at h ⊢
  simp only [mkResults] at h ⊢
  simp [updateMonitorData, h]

theorem checkAlertConditions_cooldown (m : Monitor) (res : TickResults)
    (now : ℤ) (h : inCooldown m now = true) :
    checkAlertConditions m res now = [] := by
  unfold checkAlertConditions
  simp [h]

end Monitoring

/-- C1 — Per-monitor global cooldown: (i) whenever the monitor's
`stats.lastAlert` is a (truthy, i.e. positive) timestamp and less than the
fixed 5-minute cooldown has elapsed, `checkAlertConditions` returns no
alerts at all; (ii) for any two consecutive evaluation ticks of the same
monitor at (positive, ordered) times separated by less than the cooldown,
at most one of the two ticks fires any alert. -/
theorem monitor_cooldown_enforcement
    (m mc : Monitoring.Monitor) (f1 f2 : Monitoring.FetchedData)
    (res : Monitoring.TickResults) (t t1 t2 la : ℤ)
    (hla : mc.stats.lastAlert = some la) (hpos : 0 < la)
    (hel : t - la < Monitoring.alertCooldown)
    (h1 : 0 < t1) (h12 : t1 ≤ t2)
    (hsep : t2 - t1 < Monitoring.alertCooldown) :
    Monitoring.checkAlertConditions mc res t = []
    ∧ ((Monitoring.tick m f1 t1).1 = []
        ∨ (Monitoring.tick (Monitoring.tick m f1 t1).2 f2 t2).1 = []) := by
  constructor
  · apply Monitoring.checkAlertConditions_cooldown
    unfold Monitoring.inCooldown
    rw [hla]
    simp only [Bool.and_eq_true, decide_eq_true_eq, ne_eq]
    exact ⟨by simpa using (by omega : la ≠ 0), by simpa using hel⟩
  · by_cases hfired : (Monitoring.tick m f1 t1).1 = []
    · exact Or.inl hfired
    · refine Or.inr ?_
      have hl := Monitoring.tick_fired_lastAlert m f1 t1 hfired
      show Monitoring.checkAlertConditions _ _ t2 = []
      apply Monitoring.checkAlertConditions_cooldown
      unfold Monitoring.inCooldown
      rw [hl]
      simp only [Bool.and_eq_true, decide_eq_true_eq, ne_eq]
      exact ⟨by simpa using (by omega : t1 ≠ 0), by simpa using (by omega :
        t2 - t1 < Monitoring.alertCooldown)⟩

/-- Witness for C1: a monitor that fired at t=1000 checked again at t=2000,
and two ticks of a fresh monitor at t=500 and t=700 with a qualifying
spike condition (volume 73 over threshold 50) in both. -/
theorem monitor_cooldown_enforcement_witness :
    ((⟨⟨50, 3/10, true⟩, ⟨0, 0, 0, some 1000, none⟩, ⟨[], [], [], []⟩⟩ :
        Monitoring.Monitor).stats.lastAlert = some 1000
      ∧ (0 : ℤ) < 1000 ∧ (2000 : ℤ) - 1000 < Monitoring.alertCooldown
      ∧ (0 : ℤ) < 500 ∧ (500 : ℤ) ≤ 700
      ∧ (700 : ℤ) - 500 < Monitoring.alertCooldown)
    ∧ (Monitoring.checkAlertConditions
        ⟨⟨50, 3/10, true⟩, ⟨0, 0, 0, some 1000, none⟩, ⟨[], [], [], []⟩⟩
        (Monitoring.mkResults ⟨[], none, 73⟩ 2000) 2000 = []
      ∧ ((Monitoring.tick
            ⟨⟨50, 3/10, false⟩, ⟨0, 0, 0, none, none⟩, ⟨[], [], [], []⟩⟩
            ⟨[], none, 73⟩ 500).1 = []
        ∨ (Monitoring.tick
            (Monitoring.tick
              ⟨⟨50, 3/10, false⟩, ⟨0, 0, 0, none, none⟩, ⟨[], [], [], []⟩⟩
              ⟨[], none, 73⟩ 500).2
            ⟨[], none, 73⟩ 700).1 = [])) :=
  ⟨⟨rfl, by decide, by decide, by decide, by decide, by decide⟩,
    monitor_cooldown_enforcement _ _ _ _
      (Monitoring.mkResults ⟨[], none, 73⟩ 2000) 2000 500 700 1000
      rfl (by decide) (by decide) (by decide) (by decide) (by decide)⟩

/-- C2 counterexample — the claim predicts severity `medium` for a tick
with 73 new mentions against `thresholds.mentionSpike = 50` (73 < 2×50);
the code fires the mention-spike alert with severity `high`
unconditionally, so the tick produces `[mention_spike, high]`, not a
`medium` alert. -/
theorem mentionSpike_severity_counterexample :
    (Monitoring.tick
        ⟨⟨50, 3/10, false⟩, ⟨0, 0, 0, none, none⟩, ⟨[], [], [], []⟩⟩
        ⟨[], none, 73⟩ 1000).1 =
      [{ type := "mention_spike", severity := "high", timestamp := 1000 }]
    ∧ ("high" : String) ≠ "medium" := by
  constructor
  · decide
  · decide

/-- C2 (amended) — Mention-spike firing: on any tick outside the cooldown
window, a `mention_spike` alert fires exactly when the threshold is truthy
and the tick's new-mention count exceeds it, and its severity is always
`high` (the source has no `2×threshold` severity split); in particular,
with `thresholds.mentionSpike = 50`, a tick with 73 new mentions produces
exactly one `mention_spike` alert of severity `high`, and a tick with 130
new mentions likewise produces one of severity `high`. -/
theorem mentionSpike_firing (m : Monitoring.Monitor)
    (f : Monitoring.FetchedData) (now : ℤ)
    (hnc : Monitoring.inCooldown m now = false) :
    ((Monitoring.tick m f now).1.countP
        (fun a => a.type == "mention_spike") =
      if m.alertThresholds.mentionSpike ≠ 0 ∧
          (f.volume : ℚ) > m.alertThresholds.mentionSpike then 1 else 0)
    ∧ (Monitoring.tick m f now).1.countP
        (fun a => a.type == "mention_spike" && !(a.severity == "high")) = 0
    ∧ (Monitoring.tick
        ⟨⟨50, 3/10, false⟩, ⟨0, 0, 0, none, none⟩, ⟨[], [], [], []⟩⟩
        ⟨[], none, 73⟩ 1000).1 =
      [{ type := "mention_spike", severity := "high", timestamp := 1000 }]
    ∧ (Monitoring.tick
        ⟨⟨50, 3/10, false⟩, ⟨0, 0, 0, none, none⟩, ⟨[], [], [], []⟩⟩
        ⟨[], none, 130⟩ 1000).1 =
      [{ type := "mention_spike", severity := "high", timestamp := 1000 }] := by
  have htick : (Monitoring.tick m f now).1 =
      Monitoring.mentionSpikeAlerts m (Monitoring.mkResults f now) now ++
        Monitoring.sentimentChangeAlerts m (Monitoring.mkResults f now) now ++
        Monitoring.influencerAlerts m (Monitoring.mkResults f now) now := by
    show Monitoring.checkAlertConditions m (Monitoring.mkResults f now) now = _
    unfold Monitoring.checkAlertConditions
    rw [hnc]
    simp
  refine ⟨?_, ?_, by decide, by decide⟩
  · rw [htick]
    simp only [List.countP_append]
    have hsc : (Monitoring.sentimentChangeAlerts m (Monitoring.mkResults f now)
        now).countP (fun a => a.type == "mention_spike") = 0 := by
      unfold Monitoring.sentimentChangeAlerts
      cases (Monitoring.mkResults f now).sentiment
      · rfl
      · split <;> (try rfl) <;> split <;> rfl
    have hin : (Monitoring.influencerAlerts m (Monitoring.mkResults f now)
        now).countP (fun a => a.type == "mention_spike") = 0 := by
      unfold Monitoring.influencerAlerts
      split
      · split <;> rfl
      · rfl
    rw [hsc, hin]
    unfold Monitoring.mentionSpikeAlerts
    by_cases hcond : m.alertThresholds.mentionSpike ≠ 0 ∧
        ((Monitoring.mkResults f now).volume : ℚ) > m.alertThresholds.mentionSpike
    · rw [if_pos hcond]
      have : m.alertThresholds.mentionSpike ≠ 0 ∧
          (f.volume : ℚ) > m.alertThresholds.mentionSpike := hcond
      rw [if_pos this]
      simp [List.countP_cons]
    · rw [if_neg hcond]
      have : ¬(m.alertThresholds.mentionSpike ≠ 0 ∧
          (f.volume : ℚ) > m.alertThresholds.mentionSpike) := hcond
      rw [if_neg this]
      simp
  · rw [htick]
    simp only [List.countP_append]
    have h1 : (Monitoring.mentionSpikeAlerts m (Monitoring.mkResults f now)
        now).countP (fun a => a.type == "mention_spike" &&
          !(a.severity == "high")) = 0 := by
      unfold Monitoring.mentionSpikeAlerts
      split <;> rfl
    have h2 : (Monitoring.sentimentChangeAlerts m (Monitoring.mkResults f now)
        now).countP (fun a => a.type == "mention_spike" &&
          !(a.severity == "high")) = 0 := by
      unfold Monitoring.sentimentChangeAlerts
      cases (Monitoring.mkResults f now).sentiment
      · rfl
      · split <;> (try rfl) <;> split <;> rfl
    have h3 : (Monitoring.influencerAlerts m (Monitoring.mkResults f now)
        now).countP (fun a => a.type == "mention_spike" &&
          !(a.severity == "high")) = 0 := by
      unfold Monitoring.influencerAlerts
      split
      · split <;> rfl
      · rfl
    rw [h1, h2, h3]

/-- Witness for C2 (amended) at a fresh monitor (no cooldown) with
threshold 50 and a 73-mention tick. -/
theorem mentionSpike_firing_witness :
    Monitoring.inCooldown
      ⟨⟨50, 3/10, false⟩, ⟨0, 0, 0, none, none⟩, ⟨[], [], [], []⟩⟩ 1000 = false
    ∧ (((Monitoring.tick
          ⟨⟨50, 3/10, false⟩, ⟨0, 0, 0, none, none⟩, ⟨[], [], [], []⟩⟩
          ⟨[], none, 73⟩ 1000).1.countP
          (fun a => a.type == "mention_spike") =
        if (50 : ℚ) ≠ 0 ∧ ((73 : ℕ) : ℚ) > 50 then 1 else 0)
      ∧ (Monitoring.tick
          ⟨⟨50, 3/10, false⟩, ⟨0, 0, 0, none, none⟩, ⟨[], [], [], []⟩⟩
          ⟨[], none, 73⟩ 1000).1.countP
          (fun a => a.type == "mention_spike" && !(a.severity == "high")) = 0
      ∧ (Monitoring.tick
          ⟨⟨50, 3/10, false⟩, ⟨0, 0, 0, none, none⟩, ⟨[], [], [], []⟩⟩
          ⟨[], none, 73⟩ 1000).1 =
        [{ type := "mention_spike", severity := "high", timestamp := 1000 }]
      ∧ (Monitoring.tick
          ⟨⟨50, 3/10, false⟩, ⟨0, 0, 0, none, none⟩, ⟨[], [], [], []⟩⟩
          ⟨[], none, 130⟩ 1000).1 =
        [{ type := "mention_spike", severity := "high", timestamp := 1000 }]) :=
  ⟨by decide,
    mentionSpike_firing
      ⟨⟨50, 3/10, false⟩, ⟨0, 0, 0, none, none⟩, ⟨[], [], [], []⟩⟩
      ⟨[], none, 73⟩ 1000 (by decide)⟩

namespace Sentiment

/-!
## `SentimentService`

`analyzeSentiment` (the `aiService` classification oracle) is an external
capability: it is modelled as a `String → Option OracleResult` parameter,
`none` meaning the call rejected/threw.
-/

/-- A successful oracle response (`analyzeSentiment(text)` resolved). -/
structure OracleResult where
  sentiment : String
  confidence : ℚ
  sentiment_score : ℚ
  explanation : String
  key_phrases : List String
  deriving Repr, DecidableEq

/-- The record `analyzeSingleText` returns. -/
structure SentResult where
  sentiment : String
  confidence : ℚ
  sentiment_score : ℚ
  explanation : String
  key_phrases : List String
  text : String
  deriving Repr, DecidableEq

/-- `text.slice(0, 100) + (text.length > 100 ? '...' : '')`. -/
def truncText (text : String) : String :=
  (text.take 100) ++ (if text.length > 100 then "..." else "")

/-- `analyzeSingleText`: forward the oracle result, or catch the failure
and degrade to the neutral default `{neutral, 0.5, 0.5}`. -/
def analyzeSingleText (oracle : String → Option OracleResult) (text : String) :
    SentResult :=
  match oracle text with
  | some r =>
    { sentiment := r.sentiment, confidence := r.confidence,
      sentiment_score := r.sentiment_score, explanation := r.explanation,
      key_phrases := r.key_phrases, text := truncText text }
  | none =>
    { sentiment := "neutral", confidence := 1/2, sentiment_score := 1/2,
      explanation := "Analysis failed - using neutral sentiment",
      key_phrases := [], text := truncText text }

/-- `batchAnalyzeSentiment`: process texts in batches of
`this.batchSize = 50` and concatenate.  Each batch maps
`analyzeSingleText` over its texts; since `analyzeSingleText` catches its
own errors, every `Promise.allSettled` slot is fulfilled (the
`getDefaultSentiment()` slot-replacement branch is dead code). -/
def batchAnalyzeSentiment (oracle : String → Option OracleResult) :
    List String → List SentResult
  | [] => []
  | t :: ts =>
    ((t :: ts).take 50).map (analyzeSingleText oracle) ++
      batchAnalyzeSentiment oracle ((t :: ts).drop 50)
  termination_by l => l.length
  decreasing_by
    simp only [List.length_drop, List.length_cons]
    omega

/-- `getDefaultSentiment()` (note its `score: 0` — a differently-shaped
record than the `analyzeSingleText` fallback; unreachable from
`batchAnalyzeSentiment` because `analyzeSingleText` never rejects). -/
def getDefaultSentiment : String × ℚ × ℚ := ("neutral", 1/2, 0)

/-- `tweet.public_metrics?.like_count || tweet.engagement || 0` — fields
of the tweets consumed by `calculateProjectSentiment`. -/
structure Tweet where
  text : String
  like_count : Option ℚ
  engagement : Option ℚ
  followers_count : Option ℚ
  deriving Repr, DecidableEq

def tweetEngagement (t : Tweet) : ℚ := jsOrQ t.like_count (jsOrQ t.engagement 0)

def tweetFollowers (t : Tweet) : ℚ := jsOrQ t.followers_count 0

/-- The per-mention aggregation weight of `calculateProjectSentiment`:
`1 + log10(followers+1)/100 + log10(engagement+1)/10` when influencer
weighting is enabled, `1` otherwise. -/
def mentionWeight (log10 : ℚ → ℚ) (includeInfluencers : Bool) (t : Tweet) : ℚ :=
  if includeInfluencers then
    1 + log10 (tweetFollowers t + 1) / 100 + log10 (tweetEngagement t + 1) / 10
  else 1

/-- The `(tweet, sentiment)` pairs the `forEach` body actually processes:
index-aligned pairs, skipping indices where `sentimentResults[index]` is
undefined (`if (!sentiment) return`). -/
def scoredPairs (tweets : List Tweet) (results : List SentResult) :
    List (Tweet × SentResult) :=
  tweets.enum.filterMap fun p => (results[p.1]?).map fun r => (p.2, r)

/-- `calculateConfidence`: mean of `result.confidence || 0.5`, rounded to
2 decimals; `0.5` for an empty result list. -/
def calculateConfidence (results : List SentResult) : ℚ :=
  if results = [] then 1/2
  else
    (jsRound ((results.foldl (fun acc r => acc + jsOrQ (some r.confidence) (1/2)) 0 /
      results.length) * 100) : ℚ) / 100

/-- The fields of `calculateProjectSentiment`'s return value the claims
are about. -/
structure ProjectSentiment where
  sentiment_score : ℚ
  confidence : ℚ
  total_mentions : ℕ
  influencer_mentions : ℕ
  deriving Repr, DecidableEq

/-- `followers > 10000 || engagement > 100` (influencer tracking). -/
def isInfluencerTweet (t : Tweet) : Bool :=
  tweetFollowers t > 10000 || tweetEngagement t > 100

/-- `calculateProjectSentiment(tweets, sentimentResults, includeInfluencers)`:
empty input short-circuits to the `0.5/0.5` record; otherwise accumulate
`totalScore += score·weight`, `totalWeight += weight` over the scored
pairs, average (defaulting to `0.5` when no weight was accumulated), and
round to 2 decimals. -/
def calculateProjectSentiment (log10 : ℚ → ℚ) (tweets : List Tweet)
    (results : List SentResult) (includeInfluencers : Bool) : ProjectSentiment :=
  if tweets = [] ∨ results = [] then
    { sentiment_score := 1/2, confidence := 1/2, total_mentions := 0,
      influencer_mentions := 0 }
  else
    let pairs := scoredPairs tweets results
    let totalScore := pairs.foldl
      (fun acc p => acc +
        p.2.sentiment_score * mentionWeight log10 includeInfluencers p.1) 0
    let totalWeight := pairs.foldl
      (fun acc p => acc + mentionWeight log10 includeInfluencers p.1) 0
    let averageScore := if totalWeight > 0 then totalScore / totalWeight else 1/2
    { sentiment_score := (jsRound (averageScore * 100) : ℚ) / 100
      confidence := calculateConfidence results
      total_mentions := tweets.length
      influencer_mentions := (pairs.filter fun p => isInfluencerTweet p.1).length }

/-!
### `analyzeTrend`

Inputs: the tweets' `createdAt` timestamps (ms) and the
`sentimentResults[index]?.score || 0` values (`0` when the entry is
missing, which the `getD 0` lookup reproduces).  The JS `sort` by
`a.timestamp - b.timestamp` is stable; it is embedded as a stable
insertion sort on the timestamp key.
-/

/-- Stable insert for the timestamp-ascending sort: an incoming element
goes after every element with timestamp `≤` its own. -/
def insertByTime (x : ℤ × ℚ) : List (ℤ × ℚ) → List (ℤ × ℚ)
  | [] => [x]
  | y :: ys => if y.1 ≤ x.1 then y :: insertByTime x ys else x :: y :: ys

/-- Stable sort by ascending timestamp (JS `sort((a,b) => a.ts - b.ts)`). -/
def sortByTime (l : List (ℤ × ℚ)) : List (ℤ × ℚ) := l.foldr insertByTime []

/-- The `sortedData` array of `analyzeTrend`: `(timestamp, score)` rows,
score looked up per index (`?.score || 0`), sorted by ascending time. -/
def sortedSample (timestamps : List ℤ) (scores : List ℚ) : List (ℤ × ℚ) :=
  sortByTime (timestamps.enum.map fun p => (p.2, (scores[p.1]?).getD 0))

/-- The linear-regression body of `analyzeTrend`:
`(n·ΣXY − ΣX·ΣY) / (n·ΣXX − ΣX·ΣX)` with X the rank index. -/
def regressionSlope (sortedData : List (ℤ × ℚ)) : ℚ :=
  let ys := (sortedData.map Prod.snd).enum
  let n : ℚ := sortedData.length
  let sumX := (ys.map fun p => (p.1 : ℚ)).sum
  let sumY := (ys.map fun p => p.2).sum
  let sumXY := (ys.map fun p => (p.1 : ℚ) * p.2).sum
  let sumXX := (ys.map fun p => (p.1 : ℚ) * (p.1 : ℚ)).sum
  (n * sumXY - sumX * sumY) / (n * sumXX - sumX * sumX)

/-- The OLS slope of score over rank index computed by `analyzeTrend`,
over the time-sorted sample. -/
def slopeOf (timestamps : List ℤ) (scores : List ℚ) : ℚ :=
  regressionSlope (sortedSample timestamps scores)

structure TrendResult where
  direction : String
  strength : ℚ
  description : String
  deriving Repr, DecidableEq

def getTrendDescription (direction : String) (strength : ℚ) : String :=
  let strengthLevel : String :=
    if strength > 3/10 then "strong" else if strength > 1/10 then "moderate"
    else "weak"
  if direction = "improving" then
    "Sentiment is " ++ strengthLevel ++ "ly improving over time"
  else if direction = "declining" then
    "Sentiment is " ++ strengthLevel ++ "ly declining over time"
  else "Sentiment remains relatively stable"

/-- `analyzeTrend`: fewer than 10 tweets short-circuits to
`{stable, 0, 'Insufficient data'}`; otherwise classify the OLS slope
(`> 0.1` improving, `< -0.1` declining, else stable) with
`strength = Math.round(|slope|·100)/100`. -/
def analyzeTrend (timestamps : List ℤ) (scores : List ℚ) : TrendResult :=
  if timestamps.length < 10 then
    { direction := "stable", strength := 0, description := "Insufficient data" }
  else
    let slope := slopeOf timestamps scores
    let strength := |slope|
    let direction :=
      if slope > 1/10 then "improving"
      else if slope < -1/10 then "declining" else "stable"
    { direction := direction
      strength := (jsRound (strength * 100) : ℚ) / 100
      description := getTrendDescription direction strength }

end Sentiment

namespace Sentiment

/-- Chunking by 50 and concatenating is the plain element-wise map. -/
theorem batchAnalyzeSentiment_eq_map (oracle : String → Option OracleResult)
    (texts : List String) :
    batchAnalyzeSentiment oracle texts = texts.map (analyzeSingleText oracle) := by
  have H : ∀ (n : ℕ) (l : List String), l.length ≤ n →
      batchAnalyzeSentiment oracle l = l.map (analyzeSingleText oracle) := by
    intro n
    induction n with
    | zero =>
      intro l h
      cases l with
      | nil => rw [batchAnalyzeSentiment, List.map_nil]
      | cons t ts => simp only [List.length_cons] at h; omega
    | succ n ih =>
      intro l h
      cases l with
      | nil => rw [batchAnalyzeSentiment, List.map_nil]
      | cons t ts =>
        rw [batchAnalyzeSentiment]
        rw [ih ((t :: ts).drop 50)
          (by simp only [List.length_drop, List.length_cons] at h ⊢; omega)]
        rw [← List.map_append, List.take_append_drop]
  exact H texts.length texts le_rfl

end Sentiment

/-- C6 — Classification-failure degradation: batch sentiment analysis
returns exactly one result per input text, and every item whose oracle
call fails comes back as the neutral default
`{sentiment: neutral, confidence: 0.5, sentiment_score: 0.5}` (with the
truncated source text attached) instead of aborting the batch or dropping
the item. -/
theorem batch_classification_degradation
    (oracle : String → Option Sentiment.OracleResult) (texts : List String)
    (i : ℕ) (t : String) (ht : texts[i]? = some t) (hfail : oracle t = none) :
    (Sentiment.batchAnalyzeSentiment oracle texts).length = texts.length
    ∧ (Sentiment.batchAnalyzeSentiment oracle texts)[i]? = some
        { sentiment := "neutral", confidence := 1/2, sentiment_score := 1/2,
          explanation := "Analysis failed - using neutral sentiment",
          key_phrases := [], text := Sentiment.truncText t } := by
  rw [Sentiment.batchAnalyzeSentiment_eq_map]
  constructor
  · exact List.length_map _ _
  · rw [List.getElem?_map, ht]
    simp only [Option.map_some']
    unfold Sentiment.analyzeSingleText
    rw [hfail]

/-- Witness for C6: a two-text batch where the oracle fails on the second
text and succeeds on the first. -/
theorem batch_classification_degradation_witness :
    ((["good token", "bad token"] : List String)[1]? = some "bad token"
      ∧ (fun s : String =>
          if s = "good token" then
            some (⟨"positive", 9/10, 8/10, "ok", [], ⟩ : Sentiment.OracleResult)
          else none) "bad token" = none)
    ∧ ((Sentiment.batchAnalyzeSentiment
          (fun s : String =>
            if s = "good token" then
              some (⟨"positive", 9/10, 8/10, "ok", [], ⟩ : Sentiment.OracleResult)
            else none)
          ["good token", "bad token"]).length = 2
      ∧ (Sentiment.batchAnalyzeSentiment
          (fun s : String =>
            if s = "good token" then
              some (⟨"positive", 9/10, 8/10, "ok", [], ⟩ : Sentiment.OracleResult)
            else none)
          ["good token", "bad token"])[1]? = some
          { sentiment := "neutral", confidence := 1/2, sentiment_score := 1/2,
            explanation := "Analysis failed - using neutral sentiment",
            key_phrases := [], text := Sentiment.truncText "bad token" }) :=
  ⟨⟨rfl, rfl⟩,
    batch_classification_degradation _ ["good token", "bad token"] 1
      "bad token" rfl rfl⟩

namespace Sentiment

theorem foldl_add_eq (f : α → ℚ) (l : List α) (a : ℚ) :
    l.foldl (fun acc x => acc + f x) a = a + (l.map f).sum := by
  induction l generalizing a with
  | nil => simp
  | cons x xs ih =>
    simp only [List.foldl_cons, List.map_cons, List.sum_cons, ih]
    ring

theorem mem_scoredPairs {tweets : List Tweet} {results : List SentResult}
    {p : Tweet × SentResult} (hp : p ∈ scoredPairs tweets results) :
    p.1 ∈ tweets ∧ p.2 ∈ results := by
  unfold scoredPairs at hp
  rw [List.mem_filterMap] at hp
  obtain ⟨q, hq, he⟩ := hp
  cases hr : results[q.1]? with
  | none => rw [hr] at he; exact absurd he (by simp)
  | some r =>
    rw [hr, Option.map_some'] at he
    injection he with he
    subst he
    exact ⟨List.snd_mem_of_mem_enum hq, List.getElem?_mem hr⟩

theorem mentionWeight_nonneg (log10 : ℚ → ℚ) (inc : Bool) (t : Tweet)
    (hlog : ∀ x : ℚ, 1 ≤ x → 0 ≤ log10 x)
    (hf : 0 ≤ tweetFollowers t) (he : 0 ≤ tweetEngagement t) :
    0 ≤ mentionWeight log10 inc t := by
  unfold mentionWeight
  split
  · have h1 := hlog (tweetFollowers t + 1) (by linarith)
    have h2 := hlog (tweetEngagement t + 1) (by linarith)
    have : 0 ≤ log10 (tweetFollowers t + 1) / 100 := by positivity
    have : 0 ≤ log10 (tweetEngagement t + 1) / 10 := by positivity
    linarith
  · norm_num

theorem jsRound_scale100_bound (q : ℚ) (h0 : 0 ≤ q) (h1 : q ≤ 1) :
    0 ≤ (jsRound (q * 100) : ℚ) / 100 ∧ (jsRound (q * 100) : ℚ) / 100 ≤ 1 := by
  unfold jsRound
  have hlow : (0:ℤ) ≤ ⌊q * 100 + 1/2⌋ := Int.floor_nonneg.mpr (by linarith)
  have hhigh : ⌊q * 100 + 1/2⌋ < 101 := by
    rw [Int.floor_lt]
    push_cast
    linarith
  constructor
  · apply div_nonneg _ (by norm_num : (0:ℚ) ≤ 100)
    exact_mod_cast hlow
  · rw [div_le_one (by norm_num : (0:ℚ) < 100)]
    have h100 : ⌊q * 100 + 1/2⌋ ≤ 100 := by omega
    exact_mod_cast h100

/-- The accumulated `totalScore` / `totalWeight` satisfy
`0 ≤ totalScore ≤ totalWeight` when scores lie in `[0,1]` and weights are
nonnegative. -/
theorem scored_fold_bound (log10 : ℚ → ℚ) (inc : Bool) (tweets : List Tweet)
    (results : List SentResult)
    (hlog : ∀ x : ℚ, 1 ≤ x → 0 ≤ log10 x)
    (hscore : ∀ r ∈ results, 0 ≤ r.sentiment_score ∧ r.sentiment_score ≤ 1)
    (hnn : ∀ t ∈ tweets, 0 ≤ tweetFollowers t ∧ 0 ≤ tweetEngagement t) :
    0 ≤ (scoredPairs tweets results).foldl
        (fun acc p => acc + p.2.sentiment_score * mentionWeight log10 inc p.1) 0
    ∧ (scoredPairs tweets results).foldl
        (fun acc p => acc + p.2.sentiment_score * mentionWeight log10 inc p.1) 0 ≤
      (scoredPairs tweets results).foldl
        (fun acc p => acc + mentionWeight log10 inc p.1) 0
    ∧ 0 ≤ (scoredPairs tweets results).foldl
        (fun acc p => acc + mentionWeight log10 inc p.1) 0 := by
  rw [foldl_add_eq, foldl_add_eq]
  have hw : ∀ p ∈ scoredPairs tweets results, 0 ≤ mentionWeight log10 inc p.1 := by
    intro p hp
    obtain ⟨ht, _⟩ := mem_scoredPairs hp
    exact mentionWeight_nonneg log10 inc p.1 hlog (hnn p.1 ht).1 (hnn p.1 ht).2
  have hs : ∀ p ∈ scoredPairs tweets results,
      0 ≤ p.2.sentiment_score ∧ p.2.sentiment_score ≤ 1 := by
    intro p hp
    exact hscore p.2 (mem_scoredPairs hp).2
  refine ⟨?_, ?_, ?_⟩
  · rw [zero_add]
    apply List.sum_nonneg
    intro x hx
    rw [List.mem_map] at hx
    obtain ⟨p, hp, rfl⟩ := hx
    exact mul_nonneg (hs p hp).1 (hw p hp)
  · rw [zero_add, zero_add]
    apply List.sum_le_sum
    intro p hp
    exact mul_le_of_le_one_left (hw p hp) (hs p hp).2
  · rw [zero_add]
    apply List.sum_nonneg
    intro x hx
    rw [List.mem_map] at hx
    obtain ⟨p, hp, rfl⟩ := hx
    exact hw p hp

end Sentiment

/-- C4 — Weighted sentiment bound: for every non-empty tweet sample with a
non-empty sentiment-result list whose per-mention oracle scores lie in
[0,1] (and physically meaningful non-negative follower/engagement counts),
the aggregate `sentiment_score` of `calculateProjectSentiment` lies in
[0,1]; and for an empty input (no tweets, or no sentiment results) the
calculation returns exactly `sentiment_score = 0.5` and
`confidence = 0.5`. -/
theorem weighted_sentiment_bound (log10 : ℚ → ℚ)
    (tweets tweets2 : List Sentiment.Tweet)
    (results results2 : List Sentiment.SentResult) (inc : Bool)
    (hlog : ∀ x : ℚ, 1 ≤ x → 0 ≤ log10 x)
    (hscore : ∀ r ∈ results, 0 ≤ r.sentiment_score ∧ r.sentiment_score ≤ 1)
    (hnn : ∀ t ∈ tweets, 0 ≤ Sentiment.tweetFollowers t ∧
      0 ≤ Sentiment.tweetEngagement t)
    (hne : tweets ≠ []) (hne2 : results ≠ []) :
    (0 ≤ (Sentiment.calculateProjectSentiment log10 tweets results inc).sentiment_score
      ∧ (Sentiment.calculateProjectSentiment log10 tweets results inc).sentiment_score ≤ 1)
    ∧ Sentiment.calculateProjectSentiment log10 [] results2 inc =
        { sentiment_score := 1/2, confidence := 1/2, total_mentions := 0,
          influencer_mentions := 0 }
    ∧ Sentiment.calculateProjectSentiment log10 tweets2 [] inc =
        { sentiment_score := 1/2, confidence := 1/2, total_mentions := 0,
          influencer_mentions := 0 } := by
  refine ⟨?_, ?_, ?_⟩
  · have hcond : ¬(tweets = [] ∨ results = []) := by
      intro h
      cases h with
      | inl h => exact hne h
      | inr h => exact hne2 h
    have hb := Sentiment.scored_fold_bound log10 inc tweets results hlog hscore hnn
    have hscoreq : (Sentiment.calculateProjectSentiment log10 tweets results
        inc).sentiment_score =
        (jsRound ((if (Sentiment.scoredPairs tweets results).foldl
            (fun acc p => acc + Sentiment.mentionWeight log10 inc p.1) 0 > 0 then
            ((Sentiment.scoredPairs tweets results).foldl
              (fun acc p => acc +
                p.2.sentiment_score * Sentiment.mentionWeight log10 inc p.1) 0) /
            ((Sentiment.scoredPairs tweets results).foldl
              (fun acc p => acc + Sentiment.mentionWeight log10 inc p.1) 0)
          else 1/2) * 100) : ℚ) / 100 := by
      unfold Sentiment.calculateProjectSentiment
      rw [if_neg hcond]
    rw [hscoreq]
    apply Sentiment.jsRound_scale100_bound
    · split
      · apply div_nonneg hb.1
        linarith [hb.2.2]
      · norm_num
    · split
      · rw [div_le_one (by linarith)]
        exact hb.2.1
      · norm_num
  · unfold Sentiment.calculateProjectSentiment
    rw [if_pos (Or.inl rfl)]
  · unfold Sentiment.calculateProjectSentiment
    rw [if_pos (Or.inr rfl)]

/-- Witness for C4: one tweet scored 1 with the zero log-oracle, and the
empty-input conjuncts at a sample one-element second list. -/
theorem weighted_sentiment_bound_witness :
    ((∀ x : ℚ, 1 ≤ x → 0 ≤ (0:ℚ))
      ∧ (∀ r ∈ [(⟨"positive", 1, 1, "ok", [], "t"⟩ : Sentiment.SentResult)],
          0 ≤ r.sentiment_score ∧ r.sentiment_score ≤ 1)
      ∧ (∀ t ∈ [(⟨"t", some 3, none, some 7⟩ : Sentiment.Tweet)],
          0 ≤ Sentiment.tweetFollowers t ∧ 0 ≤ Sentiment.tweetEngagement t)
      ∧ ([(⟨"t", some 3, none, some 7⟩ : Sentiment.Tweet)] ≠ [])
      ∧ ([(⟨"positive", 1, 1, "ok", [], "t"⟩ : Sentiment.SentResult)] ≠ []))
    ∧ ((0 ≤ (Sentiment.calculateProjectSentiment (fun _ => 0)
          [⟨"t", some 3, none, some 7⟩]
          [⟨"positive", 1, 1, "ok", [], "t"⟩] true).sentiment_score
        ∧ (Sentiment.calculateProjectSentiment (fun _ => 0)
          [⟨"t", some 3, none, some 7⟩]
          [⟨"positive", 1, 1, "ok", [], "t"⟩] true).sentiment_score ≤ 1)
      ∧ Sentiment.calculateProjectSentiment (fun _ => 0) []
          [⟨"positive", 1, 1, "ok", [], "t"⟩] true =
          { sentiment_score := 1/2, confidence := 1/2, total_mentions := 0,
            influencer_mentions := 0 }
      ∧ Sentiment.calculateProjectSentiment (fun _ => 0)
          [⟨"t", some 3, none, some 7⟩] [] true =
          { sentiment_score := 1/2, confidence := 1/2, total_mentions := 0,
            influencer_mentions := 0 }) :=
  ⟨⟨fun x _ => le_refl 0, by decide, by decide, by decide, by decide⟩,
    weighted_sentiment_bound (fun _ => 0) [⟨"t", some 3, none, some 7⟩]
      [⟨"t", some 3, none, some 7⟩] [⟨"positive", 1, 1, "ok", [], "t"⟩]
      [⟨"positive", 1, 1, "ok", [], "t"⟩] true
      (fun x _ => le_refl 0) (by decide) (by decide) (by decide) (by decide)⟩

namespace Sentiment

/-- At ten sample points `0..9` with scores `0,…,0,1` the OLS slope is
`3/55` (not a 2-decimal quantity). -/
theorem slope_sample_eq :
    slopeOf [0, 1, 2, 3, 4, 5, 6, 7, 8, 9]
      [0, 0, 0, 0, 0, 0, 0, 0, 0, 1] = 3 / 55 := by
  unfold slopeOf
  rw [show sortedSample [0, 1, 2, 3, 4, 5, 6, 7, 8, 9]
      [0, 0, 0, 0, 0, 0, 0, 0, 0, 1] =
    [(0, 0), (1, 0), (2, 0), (3, 0), (4, 0), (5, 0), (6, 0), (7, 0), (8, 0),
      (9, 1)] from by decide]
  unfold regressionSlope
  rw [show (([(0, 0), (1, 0), (2, 0), (3, 0), (4, 0), (5, 0), (6, 0), (7, 0),
      (8, 0), ((9 : ℤ), (1 : ℚ))].map Prod.snd).enum) =
    [(0, 0), (1, 0), (2, 0), (3, 0), (4, 0), (5, 0), (6, 0), (7, 0), (8, 0),
      (9, 1)] from by decide]
  norm_num [List.sum_cons]

end Sentiment

/-- C7 counterexample — the claim says `strength = |slope|`; at ten
timestamps `0..9` with scores `0,…,0,1` the slope is `3/55 ≈ 0.0545`, but
`analyzeTrend` returns `strength = 0.05` (|slope| rounded to 2 decimals),
which differs from `|slope|`. -/
theorem trend_strength_counterexample :
    (Sentiment.analyzeTrend [0, 1, 2, 3, 4, 5, 6, 7, 8, 9]
        [0, 0, 0, 0, 0, 0, 0, 0, 0, 1]).strength = 5 / 100
    ∧ |Sentiment.slopeOf [0, 1, 2, 3, 4, 5, 6, 7, 8, 9]
        [0, 0, 0, 0, 0, 0, 0, 0, 0, 1]| = 3 / 55
    ∧ (Sentiment.analyzeTrend [0, 1, 2, 3, 4, 5, 6, 7, 8, 9]
        [0, 0, 0, 0, 0, 0, 0, 0, 0, 1]).strength ≠
      |Sentiment.slopeOf [0, 1, 2, 3, 4, 5, 6, 7, 8, 9]
        [0, 0, 0, 0, 0, 0, 0, 0, 0, 1]| := by
  have habs : |Sentiment.slopeOf [0, 1, 2, 3, 4, 5, 6, 7, 8, 9]
      [0, 0, 0, 0, 0, 0, 0, 0, 0, 1]| = 3 / 55 := by
    rw [Sentiment.slope_sample_eq]
    norm_num
  have hstr : (Sentiment.analyzeTrend [0, 1, 2, 3, 4, 5, 6, 7, 8, 9]
      [0, 0, 0, 0, 0, 0, 0, 0, 0, 1]).strength = 5 / 100 := by
    unfold Sentiment.analyzeTrend
    rw [if_neg (by norm_num)]
    simp only [Sentiment.slope_sample_eq]
    show (jsRound (|(3 : ℚ) / 55| * 100) : ℚ) / 100 = 5 / 100
    rw [show |(3 : ℚ) / 55| = 3 / 55 from by norm_num]
    rw [show jsRound ((3 : ℚ) / 55 * 100) = 5 from by
      unfold jsRound
      rw [Int.floor_eq_iff]
      norm_num]
    norm_num
  refine ⟨hstr, habs, ?_⟩
  rw [hstr, habs]
  norm_num

/-- C7 (amended) — Trend classification: for samples of at least 10
tweets, `analyzeTrend` classifies the OLS slope of score over the
time-sorted sample as `improving` iff `slope > 0.1`, `declining` iff
`slope < -0.1`, `stable` otherwise, and returns
`strength = Math.round(|slope|·100)/100` (|slope| rounded to 2 decimals);
for every sample of fewer than 10 tweets it returns `stable` with
strength 0 regardless of the scores. -/
theorem trend_classification (ts ts2 : List ℤ) (ss ss2 : List ℚ)
    (h10 : 10 ≤ ts.length) (hsmall : ts2.length < 10) :
    ((Sentiment.analyzeTrend ts ss).direction = "improving" ↔
      Sentiment.slopeOf ts ss > 1/10)
    ∧ ((Sentiment.analyzeTrend ts ss).direction = "declining" ↔
      Sentiment.slopeOf ts ss < -(1/10))
    ∧ ((Sentiment.analyzeTrend ts ss).direction = "stable" ↔
      (-(1/10) ≤ Sentiment.slopeOf ts ss ∧ Sentiment.slopeOf ts ss ≤ 1/10))
    ∧ (Sentiment.analyzeTrend ts ss).strength =
      (jsRound (|Sentiment.slopeOf ts ss| * 100) : ℚ) / 100
    ∧ Sentiment.analyzeTrend ts2 ss2 =
      { direction := "stable", strength := 0,
        description := "Insufficient data" } := by
  have hnotlt : ¬ ts.length < 10 := not_lt.mpr h10
  have hdir : (Sentiment.analyzeTrend ts ss).direction =
      (if Sentiment.slopeOf ts ss > 1/10 then "improving"
       else if Sentiment.slopeOf ts ss < -1/10 then "declining"
       else "stable") := by
    unfold Sentiment.analyzeTrend
    rw [if_neg hnotlt]
  have hstr : (Sentiment.analyzeTrend ts ss).strength =
      (jsRound (|Sentiment.slopeOf ts ss| * 100) : ℚ) / 100 := by
    unfold Sentiment.analyzeTrend
    rw [if_neg hnotlt]
  have hneg : (-1/10 : ℚ) = -(1/10) := by norm_num
  refine ⟨?_, ?_, ?_, hstr, ?_⟩
  · rw [hdir]
    by_cases h1 : Sentiment.slopeOf ts ss > 1/10
    · rw [if_pos h1]
      exact ⟨fun _ => h1, fun _ => rfl⟩
    · rw [if_neg h1]
      by_cases h2 : Sentiment.slopeOf ts ss < -1/10
      · rw [if_pos h2]
        exact ⟨fun h => absurd h (by decide), fun h => absurd h h1⟩
      · rw [if_neg h2]
        exact ⟨fun h => absurd h (by decide), fun h => absurd h h1⟩
  · rw [hdir]
    by_cases h1 : Sentiment.slopeOf ts ss > 1/10
    · rw [if_pos h1]
      refine ⟨fun h => absurd h (by decide), fun h => ?_⟩
      exact absurd h1 (by linarith)
    · rw [if_neg h1]
      by_cases h2 : Sentiment.slopeOf ts ss < -1/10
      · rw [if_pos h2]
        rw [hneg] at h2
        exact ⟨fun _ => h2, fun _ => rfl⟩
      · rw [if_neg h2]
        rw [hneg] at h2
        exact ⟨fun h => absurd h (by decide), fun h => absurd h h2⟩
  · rw [hdir]
    by_cases h1 : Sentiment.slopeOf ts ss > 1/10
    · rw [if_pos h1]
      exact ⟨fun h => absurd h (by decide),
        fun h => absurd h1 (not_lt.mpr h.2)⟩
    · rw [if_neg h1]
      by_cases h2 : Sentiment.slopeOf ts ss < -1/10
      · rw [if_pos h2]
        rw [hneg] at h2
        exact ⟨fun h => absurd h (by decide),
          fun h => absurd h2 (not_lt.mpr h.1)⟩
      · rw [if_neg h2]
        rw [hneg] at h2
        exact ⟨fun _ => ⟨not_lt.mp h2, not_lt.mp h1⟩, fun _ => rfl⟩
  · unfold Sentiment.analyzeTrend
    rw [if_pos hsmall]

/-- Witness for C7 (amended): ten timestamps with all-default scores, and
an empty (fewer than 10) sample. -/
theorem trend_classification_witness :
    (10 ≤ ([0, 1, 2, 3, 4, 5, 6, 7, 8, 9] : List ℤ).length
      ∧ ([] : List ℤ).length < 10)
    ∧ (((Sentiment.analyzeTrend [0, 1, 2, 3, 4, 5, 6, 7, 8, 9] []).direction =
          "improving" ↔ Sentiment.slopeOf [0, 1, 2, 3, 4, 5, 6, 7, 8, 9] [] > 1/10)
      ∧ ((Sentiment.analyzeTrend [0, 1, 2, 3, 4, 5, 6, 7, 8, 9] []).direction =
          "declining" ↔ Sentiment.slopeOf [0, 1, 2, 3, 4, 5, 6, 7, 8, 9] [] < -(1/10))
      ∧ ((Sentiment.analyzeTrend [0, 1, 2, 3, 4, 5, 6, 7, 8, 9] []).direction =
          "stable" ↔ (-(1/10) ≤ Sentiment.slopeOf [0, 1, 2, 3, 4, 5, 6, 7, 8, 9] []
            ∧ Sentiment.slopeOf [0, 1, 2, 3, 4, 5, 6, 7, 8, 9] [] ≤ 1/10))
      ∧ (Sentiment.analyzeTrend [0, 1, 2, 3, 4, 5, 6, 7, 8, 9] []).strength =
          (jsRound (|Sentiment.slopeOf [0, 1, 2, 3, 4, 5, 6, 7, 8, 9] []| * 100) : ℚ) / 100
      ∧ Sentiment.analyzeTrend [] [] =
          { direction := "stable", strength := 0,
            description := "Insufficient data" }) :=
  ⟨⟨by decide, by decide⟩,
    trend_classification [0, 1, 2, 3, 4, 5, 6, 7, 8, 9] [] [] []
      (by decide) (by decide)⟩

/-- JS `a || b` for a possibly-undefined string: `undefined` and the empty
string fall through to `b`. -/
def jsOrStr (a : Option String) (b : String) : String :=
  match a with
  | some s => if s = "" then b else s
  | none => b

namespace Twitter

/-!
## `TwitterService`

`makeRequest` (the HTTP provider call) is external: `searchMentions` takes
its outcome as an `Except Unit RawData` parameter, `error` meaning the
request threw (network failure, non-OK status, rate limit).
-/

/-- `tweet.public_metrics` (raw API counts; destructured with default 0). -/
structure TweetMetrics where
  retweet_count : Option ℚ
  like_count : Option ℚ
  reply_count : Option ℚ
  quote_count : Option ℚ
  deriving Repr, DecidableEq

/-- `user.public_metrics`. -/
structure UserMetrics where
  followers_count : ℚ
  deriving Repr, DecidableEq

/-- `calculateEngagement(metrics)`:
`retweet×3 + like×1 + reply×2 + quote×2`, `0` for a missing object. -/
def calculateEngagement (metrics : Option TweetMetrics) : ℚ :=
  match metrics with
  | none => 0
  | some m =>
    (m.retweet_count.getD 0) * 3 + (m.like_count.getD 0) * 1 +
      (m.reply_count.getD 0) * 2 + (m.quote_count.getD 0) * 2

/-- `calculateInfluence(userMetrics, tweetMetrics)`:
`min(log10(followers+1)/10 + engagement/100, 1)`, `0` when either metrics
object is missing. -/
def calculateInfluence (log10 : ℚ → ℚ) (userMetrics : Option UserMetrics)
    (tweetMetrics : Option TweetMetrics) : ℚ :=
  match userMetrics, tweetMetrics with
  | some um, some tm =>
    min (log10 (um.followers_count + 1) / 10 +
      calculateEngagement (some tm) / 100) 1
  | _, _ => 0

structure RawUser where
  id : String
  username : Option String
  name : Option String
  verified : Option Bool
  public_metrics : Option UserMetrics
  deriving Repr, DecidableEq

structure RawTweet where
  id : String
  text : String
  created_at : Option String
  author_id : String
  public_metrics : Option TweetMetrics
  deriving Repr, DecidableEq

structure RawMeta where
  result_count : Option ℚ
  next_token : Option String
  deriving Repr, DecidableEq

/-- The raw `/tweets/search/recent` response body. -/
structure RawData where
  data : Option (List RawTweet)
  includes_users : Option (List RawUser)
  meta : Option RawMeta
  deriving Repr, DecidableEq

structure FormattedAuthor where
  id : String
  username : String
  name : String
  verified : Bool
  followers : ℚ
  deriving Repr, DecidableEq

structure FormattedMetrics where
  retweets : ℚ
  likes : ℚ
  replies : ℚ
  quotes : ℚ
  deriving Repr, DecidableEq

structure FormattedTweet where
  id : String
  text : String
  createdAt : Option String
  author : FormattedAuthor
  metrics : FormattedMetrics
  engagement : ℚ
  influence : ℚ
  deriving Repr, DecidableEq

structure FormattedResult where
  tweets : List FormattedTweet
  result_count : ℚ
  next_token : Option String
  deriving Repr, DecidableEq

/-- The `userMap` reduce + lookup (`userMap[tweet.author_id] || {}`):
last user with a matching id wins, a missing user acts as `{}`. -/
def lookupUser (users : List RawUser) (authorId : String) : Option RawUser :=
  users.foldl (fun acc u => if u.id = authorId then some u else acc) none

/-- `formatTweetData(data)`: empty result when `data`/`data.data` is
missing, otherwise normalize each raw tweet. -/
def formatTweetData (log10 : ℚ → ℚ) (data : Option RawData) : FormattedResult :=
  match data with
  | none => { tweets := [], result_count := 0, next_token := none }
  | some d =>
    match d.data with
    | none => { tweets := [], result_count := 0, next_token := none }
    | some rawTweets =>
      let users := d.includes_users.getD []
      let tweets := rawTweets.map fun tw =>
        let author := lookupUser users tw.author_id
        { id := tw.id
          text := tw.text
          createdAt := tw.created_at
          author :=
            { id := tw.author_id
              username := jsOrStr (author.bind (·.username)) "unknown"
              name := jsOrStr (author.bind (·.name)) "Unknown User"
              verified := ((author.bind (·.verified)).getD false)
              followers := jsOrQ
                ((author.bind (·.public_metrics)).map (·.followers_count)) 0 }
          metrics :=
            { retweets := jsOrQ (tw.public_metrics.bind (·.retweet_count)) 0
              likes := jsOrQ (tw.public_metrics.bind (·.like_count)) 0
              replies := jsOrQ (tw.public_metrics.bind (·.reply_count)) 0
              quotes := jsOrQ (tw.public_metrics.bind (·.quote_count)) 0 }
          engagement := calculateEngagement tw.public_metrics
          influence := calculateInfluence log10
            (author.bind (·.public_metrics)) tw.public_metrics }
      { tweets := tweets
        result_count := jsOrQ (d.meta.map (·.result_count)).join 0
        next_token := (d.meta.map (·.next_token)).join }

/-- `getMockMentions(project)`: the fixed two-tweet development fallback.
The two `createdAt` ISO strings are clock-derived
(`Date.now() − 1h / − 2h`) and passed in as parameters. -/
def getMockMentions (project : String) (iso1 iso2 : String) : FormattedResult :=
  { tweets :=
      [{ id := "1"
         text := "Just bought more " ++ project ++
           "! This dip is a great opportunity 🚀 #crypto"
         createdAt := some iso1
         author :=
           { id := "user1", username := "cryptotrader123",
             name := "Crypto Trader", verified := false, followers := 5420 }
         metrics := { retweets := 12, likes := 45, replies := 8, quotes := 3 }
         engagement := 89
         influence := 3/10 },
       { id := "2"
         text := project ++
           " looking bearish on the charts. Might be time to take profits 📉"
         createdAt := some iso2
         author :=
           { id := "user2", username := "chartanalyst",
             name := "Chart Analyst", verified := true, followers := 25000 }
         metrics := { retweets := 34, likes := 128, replies := 22, quotes := 8 }
         engagement := 234
         influence := 7/10 }]
    result_count := 2
    next_token := none }

/-- `searchMentions(query, options)` after the provider call settled:
format the data on success, fall back to the mock mentions when the
request threw. -/
def searchMentions (log10 : ℚ → ℚ) (response : Except Unit RawData)
    (query : String) (iso1 iso2 : String) : FormattedResult :=
  match response with
  | Except.ok d => formatTweetData log10 (some d)
  | Except.error _ => getMockMentions query iso1 iso2

end Twitter

/-- C5 counterexample — the claim says a failed provider call yields an
empty result (zero mentions); the code instead falls back to
`getMockMentions`, two fabricated mock mentions. -/
theorem sourceFailure_counterexample :
    (Twitter.searchMentions (fun _ => 0) (Except.error ()) "bitcoin"
      "2024-01-01T00:00:00Z" "2024-01-01T01:00:00Z").tweets.length = 2
    ∧ (Twitter.searchMentions (fun _ => 0) (Except.error ()) "bitcoin"
      "2024-01-01T00:00:00Z" "2024-01-01T01:00:00Z").tweets.length ≠ 0 := by
  constructor
  · rfl
  · decide

/-- C5 (amended) — Source-failure containment: when the provider call
throws, `searchMentions` does not propagate the error past its boundary;
it returns — not an empty, source-unavailable-flagged result, but the
fixed two-tweet mock fallback (`getMockMentions`), fabricated mention
data with `result_count = 2`. -/
theorem sourceFailure_mock_fallback (log10 : ℚ → ℚ)
    (query iso1 iso2 : String) :
    Twitter.searchMentions log10 (Except.error ()) query iso1 iso2 =
      Twitter.getMockMentions query iso1 iso2
    ∧ (Twitter.searchMentions log10 (Except.error ()) query iso1
        iso2).tweets.length = 2
    ∧ (Twitter.searchMentions log10 (Except.error ()) query iso1
        iso2).result_count = 2 :=
  ⟨rfl, rfl, rfl⟩

/-- `min(1, max(0, q))` — the clamping the spec's influence formula asks
for. -/
def clamp01 (q : ℚ) : ℚ := min 1 (max 0 q)

/-- The influence the claim asserts (spec wording, for comparison against
the code): `log10(followerCount+1)/10 + log10(engagement+1)/10`, clamped
to [0,1]. -/
def specInfluence (log10 : ℚ → ℚ) (followers engagement : ℚ) : ℚ :=
  clamp01 (log10 (followers + 1) / 10 + log10 (engagement + 1) / 10)

/-- The aggregation weight the claim asserts (spec wording):
`1 + influence`. -/
def specInfluenceWeight (log10 : ℚ → ℚ) (t : Sentiment.Tweet) : ℚ :=
  1 + specInfluence log10 (Sentiment.tweetFollowers t) (Sentiment.tweetEngagement t)

/-- C8 counterexample — with a log10 oracle that agrees with the true
`Math.log10` at the two evaluated points (`log10 10 = 1`, `log10 1 = 0`),
a mention with 9 followers and engagement 0 gets aggregation weight
`1 + 1/100 = 1.01` in `calculateProjectSentiment` (the follower term is
divided by 100, unclamped), not the claimed `1 + influence = 1.1`; and
`calculateInfluence` at 9 followers / engagement 9 returns
`min(1/10 + 9/100, 1) = 0.19` (raw engagement over 100), not the claimed
`log10`-based `0.2`. -/
theorem influence_weight_counterexample :
    Sentiment.mentionWeight (fun q => if q = 10 then 1 else 0) true
      ⟨"x", none, none, some 9⟩ = 101/100
    ∧ specInfluenceWeight (fun q => if q = 10 then 1 else 0)
      ⟨"x", none, none, some 9⟩ = 11/10
    ∧ Sentiment.mentionWeight (fun q => if q = 10 then 1 else 0) true
      ⟨"x", none, none, some 9⟩ ≠
      specInfluenceWeight (fun q => if q = 10 then 1 else 0)
        ⟨"x", none, none, some 9⟩
    ∧ (fun q : ℚ => if q = 10 then (1:ℚ) else 0) 10 = 1
    ∧ (fun q : ℚ => if q = 10 then (1:ℚ) else 0) 1 = 0
    ∧ Twitter.calculateInfluence (fun q => if q = 10 then 1 else 0)
      (some ⟨9⟩) (some ⟨some 0, some 9, some 0, some 0⟩) = 19/100
    ∧ specInfluence (fun q => if q = 10 then 1 else 0) 9 9 = 1/5
    ∧ (19/100 : ℚ) ≠ 1/5 := by
  have hmw : Sentiment.mentionWeight (fun q => if q = 10 then 1 else 0) true
      ⟨"x", none, none, some 9⟩ = 101/100 := by
    unfold Sentiment.mentionWeight Sentiment.tweetFollowers
      Sentiment.tweetEngagement jsOrQ
    norm_num
  have hsw : specInfluenceWeight (fun q => if q = 10 then 1 else 0)
      ⟨"x", none, none, some 9⟩ = 11/10 := by
    unfold specInfluenceWeight specInfluence clamp01 Sentiment.tweetFollowers
      Sentiment.tweetEngagement jsOrQ
    norm_num
  have hci : Twitter.calculateInfluence (fun q => if q = 10 then 1 else 0)
      (some ⟨9⟩) (some ⟨some 0, some 9, some 0, some 0⟩) = 19/100 := by
    unfold Twitter.calculateInfluence Twitter.calculateEngagement
    norm_num
  have hsi : specInfluence (fun q => if q = 10 then 1 else 0) 9 9 = 1/5 := by
    unfold specInfluence clamp01
    norm_num
  refine ⟨hmw, hsw, ?_, by norm_num, by norm_num, hci, hsi, by norm_num⟩
  rw [hmw, hsw]
  norm_num

/-- C8 (amended) — Influence-weighted averaging as the code computes it:
when influencer weighting is enabled the aggregation weight of a mention
is `1 + log10(followers+1)/100 + log10(engagement+1)/10` (follower term
over 100, no clamping), and `1` when disabled; the aggregate score is
`Σ(score·weight)/Σ(weight)` over the scored mentions (rounded to 2
decimals in the returned `sentiment_score`), provided the accumulated
weight is positive. -/
theorem influence_weighted_average (log10 : ℚ → ℚ)
    (tweets : List Sentiment.Tweet) (results : List Sentiment.SentResult)
    (inc : Bool) (t : Sentiment.Tweet)
    (hne : tweets ≠ []) (hne2 : results ≠ [])
    (hW : 0 < ((Sentiment.scoredPairs tweets results).map
      (fun p => Sentiment.mentionWeight log10 inc p.1)).sum) :
    (Sentiment.calculateProjectSentiment log10 tweets results
        inc).sentiment_score =
      (jsRound ((((Sentiment.scoredPairs tweets results).map
          (fun p => p.2.sentiment_score *
            Sentiment.mentionWeight log10 inc p.1)).sum /
        ((Sentiment.scoredPairs tweets results).map
          (fun p => Sentiment.mentionWeight log10 inc p.1)).sum) * 100) : ℚ) /
        100
    ∧ Sentiment.mentionWeight log10 false t = 1
    ∧ Sentiment.mentionWeight log10 true t =
        1 + log10 (Sentiment.tweetFollowers t + 1) / 100 +
          log10 (Sentiment.tweetEngagement t + 1) / 10 := by
  have hcond : ¬(tweets = [] ∨ results = []) := by
    intro h
    cases h with
    | inl h => exact hne h
    | inr h => exact hne2 h
  have hfs : (Sentiment.scoredPairs tweets results).foldl
      (fun acc p => acc + p.2.sentiment_score *
        Sentiment.mentionWeight log10 inc p.1) 0 =
      ((Sentiment.scoredPairs tweets results).map
        (fun p => p.2.sentiment_score *
          Sentiment.mentionWeight log10 inc p.1)).sum := by
    rw [Sentiment.foldl_add_eq, zero_add]
  have hfw : (Sentiment.scoredPairs tweets results).foldl
      (fun acc p => acc + Sentiment.mentionWeight log10 inc p.1) 0 =
      ((Sentiment.scoredPairs tweets results).map
        (fun p => Sentiment.mentionWeight log10 inc p.1)).sum := by
    rw [Sentiment.foldl_add_eq, zero_add]
  refine ⟨?_, by unfold Sentiment.mentionWeight; rw [if_neg (by decide)],
    by unfold Sentiment.mentionWeight; rw [if_pos rfl]⟩
  unfold Sentiment.calculateProjectSentiment
  rw [if_neg hcond]
  simp only [hfs, hfw]
  rw [if_pos hW]

/-- Witness for C8 (amended): one tweet, one result, influencer weighting
disabled (every weight 1). -/
theorem influence_weighted_average_witness :
    (([(⟨"t", some 3, none, some 7⟩ : Sentiment.Tweet)] ≠ [])
      ∧ ([(⟨"positive", 1, 1, "ok", [], "t"⟩ : Sentiment.SentResult)] ≠ [])
      ∧ 0 < ((Sentiment.scoredPairs [⟨"t", some 3, none, some 7⟩]
          [⟨"positive", 1, 1, "ok", [], "t"⟩]).map
          (fun p => Sentiment.mentionWeight (fun _ => 0) false p.1)).sum)
    ∧ ((Sentiment.calculateProjectSentiment (fun _ => 0)
        [⟨"t", some 3, none, some 7⟩]
        [⟨"positive", 1, 1, "ok", [], "t"⟩] false).sentiment_score =
      (jsRound ((((Sentiment.scoredPairs [⟨"t", some 3, none, some 7⟩]
          [⟨"positive", 1, 1, "ok", [], "t"⟩]).map
          (fun p => p.2.sentiment_score *
            Sentiment.mentionWeight (fun _ => 0) false p.1)).sum /
        ((Sentiment.scoredPairs [⟨"t", some 3, none, some 7⟩]
          [⟨"positive", 1, 1, "ok", [], "t"⟩]).map
          (fun p => Sentiment.mentionWeight (fun _ => 0) false p.1)).sum) *
        100) : ℚ) / 100
      ∧ Sentiment.mentionWeight (fun _ => 0) false ⟨"t", some 3, none, some 7⟩ = 1
      ∧ Sentiment.mentionWeight (fun _ => 0) true ⟨"t", some 3, none, some 7⟩ =
          1 + (fun _ : ℚ => (0:ℚ))
            (Sentiment.tweetFollowers ⟨"t", some 3, none, some 7⟩ + 1) / 100 +
          (fun _ : ℚ => (0:ℚ))
            (Sentiment.tweetEngagement ⟨"t", some 3, none, some 7⟩ + 1) / 10) :=
  ⟨⟨by decide, by decide, by
      rw [show Sentiment.scoredPairs [⟨"t", some 3, none, some 7⟩]
          [⟨"positive", 1, 1, "ok", [], "t"⟩] =
          [(⟨"t", some 3, none, some 7⟩, ⟨"positive", 1, 1, "ok", [], "t"⟩)]
        from by decide]
      simp [Sentiment.mentionWeight]⟩,
    influence_weighted_average (fun _ => 0) [⟨"t", some 3, none, some 7⟩]
      [⟨"positive", 1, 1, "ok", [], "t"⟩] false ⟨"t", some 3, none, some 7⟩
      (by decide) (by decide)
      (by
        rw [show Sentiment.scoredPairs [⟨"t", some 3, none, some 7⟩]
            [⟨"positive", 1, 1, "ok", [], "t"⟩] =
            [(⟨"t", some 3, none, some 7⟩, ⟨"positive", 1, 1, "ok", [], "t"⟩)]
          from by decide]
        simp [Sentiment.mentionWeight])⟩

namespace Alert

/-!
## `AlertService` — create-time validation

`createAlert` builds the alert record from the given configuration,
validates it, and only then registers it in `this.alerts` (modelled as an
association list) — the `throw` happens before any mutation.

`validateAlert` reads `alert.config.notificationMethod` without guarding
`alert.config`, so a missing `config` object makes the validator itself
throw a `TypeError` (modelled as `Except.error ()`); either way `createAlert`
rejects synchronously and registers nothing.  `isNaN(parseFloat(threshold))`
on an (always numeric here) threshold reduces to the JS truthiness of the
threshold value.
-/

/-- `alertConfig.config` (fields the validator reads; an absent/empty
string field is falsy either way and is modelled as `""`). -/
structure AlertCfg where
  project : String
  notificationMethod : String
  threshold : Option ℚ
  direction : String
  deriving Repr, DecidableEq

/-- The alert configuration passed to `createAlert`. -/
structure AlertInput where
  type : String
  config : Option AlertCfg
  deriving Repr, DecidableEq

/-- `validateAlert`: the accumulated `errors` list, or a `TypeError` when
`alert.config` is missing (line `!alert.config.notificationMethod`). -/
def validateAlert (a : AlertInput) : Except Unit (List String) :=
  match a.config with
  | none => Except.error ()
  | some cfg =>
    Except.ok
      ((if a.type = "" then ["Alert type is required"] else []) ++
       (if cfg.project = "" then ["Project is required"] else []) ++
       (if cfg.notificationMethod = "" then
          ["Notification method is required"] else []) ++
       (if a.type = "mention_increase" ∨ a.type = "volume_spike" then
          if truthyQ cfg.threshold then []
          else ["Valid threshold percentage is required"]
        else if a.type = "sentiment_change" then
          (if truthyQ cfg.threshold then []
           else ["Valid threshold value is required"]) ++
          (if cfg.direction = "positive" ∨ cfg.direction = "negative" ∨
              cfg.direction = "any" then []
           else ["Valid direction (positive/negative/any) is required"])
        else if a.type = "new_mention" then
          if truthyQ cfg.threshold then []
          else ["Valid mention count threshold is required"]
        else []))

inductive CreateError where
  | typeError
  | validationError (errors : List String)
  deriving Repr, DecidableEq

/-- `createAlert(alertConfig)` against the `this.alerts` map: reject
(type error or validation error) before any mutation, or register the
new entry. -/
def createAlert (input : AlertInput) (id : String)
    (alerts : List (String × AlertInput)) :
    Except CreateError AlertInput × List (String × AlertInput) :=
  match validateAlert input with
  | Except.error _ => (Except.error CreateError.typeError, alerts)
  | Except.ok errors =>
    if errors ≠ [] then
      (Except.error (CreateError.validationError errors), alerts)
    else
      (Except.ok input, alerts ++ [(id, input)])

/-- The alert types whose validation demands a (truthy) numeric
threshold. -/
def typeRequiresThreshold (t : String) : Prop :=
  t = "mention_increase" ∨ t = "volume_spike" ∨ t = "sentiment_change" ∨
    t = "new_mention"

instance (t : String) : Decidable (typeRequiresThreshold t) := by
  unfold typeRequiresThreshold
  infer_instance

end Alert

/-- C9 — Create-time validation atomicity: `createAlert` succeeds exactly
when the validator reports no errors; every rejection (missing config
object, missing alert type, missing project, missing notification method,
or a falsy threshold where the alert type requires one) is synchronous and
leaves the alert map exactly as it was; every accepted configuration is
registered as the new entry. -/
theorem create_validation_atomicity (input : Alert.AlertInput) (id : String)
    (alerts : List (String × Alert.AlertInput)) (cfg : Alert.AlertCfg) :
    ((Alert.createAlert input id alerts).1.isOk = true ↔
      Alert.validateAlert input = Except.ok [])
    ∧ ((Alert.createAlert input id alerts).1.isOk = false →
        (Alert.createAlert input id alerts).2 = alerts)
    ∧ ((Alert.createAlert input id alerts).1.isOk = true →
        (Alert.createAlert input id alerts).2 = alerts ++ [(id, input)])
    ∧ (input.config = none →
        (Alert.createAlert input id alerts).1.isOk = false)
    ∧ (input.config = some cfg →
        (input.type = "" ∨ cfg.project = "" ∨ cfg.notificationMethod = "" ∨
          (Alert.typeRequiresThreshold input.type ∧
            truthyQ cfg.threshold = false)) →
        (Alert.createAlert input id alerts).1.isOk = false) := by
  refine ⟨?_, ?_, ?_, ?_, ?_⟩
  · unfold Alert.createAlert
    cases hv : Alert.validateAlert input with
    | error e => simp [Except.isOk, Except.toBool]
    | ok errors =>
      by_cases he : errors = []
      · subst he
        simp [Except.isOk, Except.toBool]
      · simp [he, Except.isOk, Except.toBool]
  · unfold Alert.createAlert
    cases hv : Alert.validateAlert input with
    | error e => intro _; rfl
    | ok errors =>
      by_cases he : errors = []
      · subst he
        simp [Except.isOk, Except.toBool]
      · simp [he]
  · unfold Alert.createAlert
    cases hv : Alert.validateAlert input with
    | error e => simp [Except.isOk, Except.toBool]
    | ok errors =>
      by_cases he : errors = []
      · subst he
        simp
      · simp [he, Except.isOk, Except.toBool]
  · intro hc
    unfold Alert.createAlert
    have hv : Alert.validateAlert input = Except.error () := by
      unfold Alert.validateAlert
      rw [hc]
    rw [hv]
    rfl
  · intro hc hbad
    unfold Alert.createAlert
    cases hv : Alert.validateAlert input with
    | error e => rfl
    | ok errors =>
      have hne : errors ≠ [] := by
        unfold Alert.validateAlert at hv
        rw [hc] at hv
        injection hv with hv
        intro hE
        rw [← hv] at hE
        rw [List.append_eq_nil, List.append_eq_nil, List.append_eq_nil] at hE
        obtain ⟨⟨⟨h1, h2⟩, h3⟩, h4⟩ := hE
        rcases hbad with hb | hb | hb | ⟨hb1, hb2⟩
        · rw [if_pos hb] at h1
          exact List.cons_ne_nil _ _ h1
        · rw [if_pos hb] at h2
          exact List.cons_ne_nil _ _ h2
        · rw [if_pos hb] at h3
          exact List.cons_ne_nil _ _ h3
        · rcases hb1 with h | h | h | h
          · rw [if_pos (Or.inl h)] at h4
            rw [hb2] at h4
            simp at h4
          · rw [if_pos (Or.inr h)] at h4
            rw [hb2] at h4
            simp at h4
          · have hnot : ¬(input.type = "mention_increase" ∨
                input.type = "volume_spike") := by
              rw [h]; decide
            rw [if_neg hnot, if_pos h, List.append_eq_nil] at h4
            rw [hb2] at h4
            simp at h4
          · have hnot : ¬(input.type = "mention_increase" ∨
                input.type = "volume_spike") := by
              rw [h]; decide
            have hnot2 : ¬input.type = "sentiment_change" := by
              rw [h]; decide
            rw [if_neg hnot, if_neg hnot2, if_pos h] at h4
            rw [hb2] at h4
            simp at h4
      simp [hne, Except.isOk, Except.toBool]

/-- Witness for C9 at concrete configurations: a `new_mention` alert with
a missing (zero) threshold is rejected with the map untouched, exercised
through the theorem at a one-entry map. -/
theorem create_validation_atomicity_witness :
    ((⟨"new_mention", some ⟨"bitcoin", "email", some 0, "any"⟩⟩ :
        Alert.AlertInput).config = some ⟨"bitcoin", "email", some 0, "any"⟩
      ∧ (("new_mention" : String) = "" ∨ ("bitcoin" : String) = "" ∨
          ("email" : String) = "" ∨
          (Alert.typeRequiresThreshold "new_mention" ∧
            truthyQ (some 0) = false)))
    ∧ (((Alert.createAlert ⟨"new_mention", some ⟨"bitcoin", "email", some 0, "any"⟩⟩
          "a1" [("a0", ⟨"volume_spike", none⟩)]).1.isOk = true ↔
        Alert.validateAlert
          ⟨"new_mention", some ⟨"bitcoin", "email", some 0, "any"⟩⟩ =
          Except.ok [])
      ∧ ((Alert.createAlert ⟨"new_mention", some ⟨"bitcoin", "email", some 0, "any"⟩⟩
          "a1" [("a0", ⟨"volume_spike", none⟩)]).1.isOk = false →
        (Alert.createAlert ⟨"new_mention", some ⟨"bitcoin", "email", some 0, "any"⟩⟩
          "a1" [("a0", ⟨"volume_spike", none⟩)]).2 =
          [("a0", ⟨"volume_spike", none⟩)])
      ∧ ((Alert.createAlert ⟨"new_mention", some ⟨"bitcoin", "email", some 0, "any"⟩⟩
          "a1" [("a0", ⟨"volume_spike", none⟩)]).1.isOk = true →
        (Alert.createAlert ⟨"new_mention", some ⟨"bitcoin", "email", some 0, "any"⟩⟩
          "a1" [("a0", ⟨"volume_spike", none⟩)]).2 =
          [("a0", ⟨"volume_spike", none⟩)] ++
            [("a1", ⟨"new_mention", some ⟨"bitcoin", "email", some 0, "any"⟩⟩)])
      ∧ ((⟨"new_mention", some ⟨"bitcoin", "email", some 0, "any"⟩⟩ :
          Alert.AlertInput).config = none →
        (Alert.createAlert ⟨"new_mention", some ⟨"bitcoin", "email", some 0, "any"⟩⟩
          "a1" [("a0", ⟨"volume_spike", none⟩)]).1.isOk = false)
      ∧ ((⟨"new_mention", some ⟨"bitcoin", "email", some 0, "any"⟩⟩ :
          Alert.AlertInput).config = some ⟨"bitcoin", "email", some 0, "any"⟩ →
        (("new_mention" : String) = "" ∨ ("bitcoin" : String) = "" ∨
          ("email" : String) = "" ∨
          (Alert.typeRequiresThreshold "new_mention" ∧
            truthyQ (some 0) = false)) →
        (Alert.createAlert ⟨"new_mention", some ⟨"bitcoin", "email", some 0, "any"⟩⟩
          "a1" [("a0", ⟨"volume_spike", none⟩)]).1.isOk = false)) :=
  ⟨⟨rfl, Or.inr (Or.inr (Or.inr ⟨by decide, by decide⟩))⟩,
    create_validation_atomicity
      ⟨"new_mention", some ⟨"bitcoin", "email", some 0, "any"⟩⟩ "a1"
      [("a0", ⟨"volume_spike", none⟩)] ⟨"bitcoin", "email", some 0, "any"⟩⟩
